import Mathlib

/-!
# Locafy client: session/token manager and HTTP client wrapper

Shallow embedding of the authentication context (AuthContext), the
ApiService axios interceptors, the bounds-restricted map picker and the
reply-tree counter of the Locafy front end.  Browser `localStorage` is a
record of the four keys the client uses; the JWT payload decoder (`atob`
plus JSON parsing) is an oracle parameter `jwtExp`; network calls are
outcome parameters.  JavaScript string truthiness (empty string is falsy)
is modelled explicitly.
-/

namespace Locafy

/-- A user profile as held in the `user` storage key (`JSON.parse` of the
stored value); `role` is an optional string, accessed as `user?.role`. -/
structure User where
  id : String
  name : Option String
  email : Option String
  role : Option String
deriving Repr, DecidableEq

/-- The browser `localStorage` keys the client reads and writes:
`accessToken`, `refreshToken`, `user` (serialized profile, modelled as the
parsed value), `lastRoleCheck`.  `none` means the key is absent. -/
structure Storage where
  accessToken : Option String
  refreshToken : Option String
  user : Option User
  lastRoleCheck : Option String
deriving Repr, DecidableEq

/-- JavaScript truthiness of a possibly-missing string: `null`/`undefined`
and the empty string are falsy. -/
def optTruthy : Option String → Bool
  | none => false
  | some s => !(s == "")

/-- `const getTokenExpiration = (token) => { try { const payload =
JSON.parse(atob(token.split('.')[1])); return payload.exp ? payload.exp *
1000 : null; } catch { return null; } }`.  The oracle `jwtExp` returns the
decoded `exp` claim of the payload, `none` when the payload is
undecodable or carries no `exp` field; `exp = 0` is falsy in JS, so it
also yields `null`. -/
def getTokenExpiration (jwtExp : String → Option Int) (token : String) :
    Option Int :=
  match jwtExp token with
  | some e => if e = 0 then none else some (e * 1000)
  | none => none

/-- `const isTokenExpiringSoon = (token) => { if (!token) return true;
const expiration = getTokenExpiration(token); if (!expiration) return
true; const twoMinutesFromNow = Date.now() + 2 * 60 * 1000; return
expiration <= twoMinutesFromNow; }` with `Date.now()` passed as `now`. -/
def isTokenExpiringSoon (jwtExp : String → Option Int) (now : Int) :
    Option String → Bool
  | none => true
  | some token =>
    if token = "" then true
    else
      match getTokenExpiration jwtExp token with
      | none => true
      | some expiration => decide (expiration ≤ now + 2 * 60 * 1000)

/-- The token object of a refresh-endpoint response
(`response.data.data.tokens`): `accessToken` is destructured directly,
`refreshToken` may be absent (`if (newRefreshToken)` guards its store). -/
structure RefreshTokens where
  accessToken : String
  refreshToken : Option String
deriving Repr, DecidableEq

/-- Outcome of `axios.post(API_BASE_URL + '/auth/v1/refresh-token', {
refreshToken })`: either the promise rejects (network/HTTP error), or a
response arrives with `response.data.status` and optionally
`response.data.data.tokens`. -/
inductive RefreshOutcome where
  | networkError : RefreshOutcome
  | response (status : String) (tokens : Option RefreshTokens) : RefreshOutcome
deriving Repr, DecidableEq

/-- The slice of an axios request config the interceptors touch: the
`_retry` flag and the `Authorization` header. -/
structure Request where
  _retry : Bool
  authHeader : Option String
deriving Repr, DecidableEq

/-- Storing the tokens of a successful refresh response:
`localStorage.setItem('accessToken', newAccessToken); if
(newRefreshToken) localStorage.setItem('refreshToken',
newRefreshToken);` (empty-string `newRefreshToken` is falsy). -/
def storeRefreshedTokens (st : Storage) (tk : RefreshTokens) : Storage :=
  let st := { st with accessToken := some tk.accessToken }
  match tk.refreshToken with
  | some rt => if rt = "" then st else { st with refreshToken := some rt }
  | none => st

/-- `localStorage.removeItem('accessToken'); removeItem('refreshToken');
removeItem('user');` — the three session keys; `lastRoleCheck` is not
touched here. -/
def clearSessionKeys (st : Storage) : Storage :=
  { st with accessToken := none, refreshToken := none, user := none }

/-- What the response interceptor's error handler ends with: rejecting
with the original error, rejecting with the refresh error, or re-issuing
the original request (`return this.api(originalRequest)`). -/
inductive RespAction where
  | rejectOriginal : RespAction
  | rejectRefreshError : RespAction
  | replay (req : Request) : RespAction
deriving Repr, DecidableEq

/-- Result of one run of the response interceptor's error handler:
final storage, whether `window.location.href = '/login'` was assigned,
how many refresh-endpoint calls were made, and the ending action. -/
structure RespResult where
  storage : Storage
  redirect : Bool
  refreshCalls : Nat
  action : RespAction
deriving Repr, DecidableEq

/-- The `ApiService` response interceptor's error handler.  `pathname` is
`window.location.pathname`; `status` is `error.response?.status`;
`refresh` is the outcome the refresh endpoint would produce if called.
Mirrors: on 401 with `!originalRequest._retry`, set `_retry = true`; with
no truthy stored refresh token (`if (!refreshToken)` — absent or empty
string) clear the session keys and redirect unconditionally, rejecting
the original error; otherwise call the refresh endpoint: on `status ===
'success'` with tokens, store them, put the new bearer token on the
original request, and replay it; on any other response (the `throw new
Error(...)` path) or a network error, clear the session keys and
redirect unless already on `/login`, rejecting with the refresh error.
Any other status, or `_retry` already set, rejects the original error
untouched. -/
def handleResponseError (st : Storage) (pathname : String) (req : Request)
    (status : Option Nat) (refresh : RefreshOutcome) : RespResult :=
  if status = some 401 ∧ req._retry = false then
    let req := { req with _retry := true }
    if optTruthy st.refreshToken then
      match refresh with
      | .networkError =>
        { storage := clearSessionKeys st, redirect := pathname ≠ "/login",
          refreshCalls := 1, action := .rejectRefreshError }
      | .response rstatus tokens =>
        if rstatus = "success" then
          match tokens with
          | some tk =>
            { storage := storeRefreshedTokens st tk, redirect := false,
              refreshCalls := 1,
              action := .replay { req with
                authHeader := some ("Bearer " ++ tk.accessToken) } }
          | none =>
            { storage := clearSessionKeys st, redirect := pathname ≠ "/login",
              refreshCalls := 1, action := .rejectRefreshError }
        else
          { storage := clearSessionKeys st, redirect := pathname ≠ "/login",
            refreshCalls := 1, action := .rejectRefreshError }
    else
      { storage := clearSessionKeys st, redirect := true,
        refreshCalls := 0, action := .rejectOriginal }
  else
    { storage := st, redirect := false, refreshCalls := 0,
      action := .rejectOriginal }

/-- `if (token && config.headers) config.headers.Authorization = 'Bearer '
+ token;` — the header is set only for a truthy token value. -/
def mkAuthHeader (token : Option String) : Option String :=
  match token with
  | some t => if t = "" then none else some ("Bearer " ++ t)
  | none => none

/-- Result of one run of the request interceptor: final storage, the
`Authorization` header put on the outgoing config, and how many
refresh-endpoint calls were made. -/
structure ReqResult where
  storage : Storage
  authHeader : Option String
  refreshCalls : Nat
deriving Repr, DecidableEq

/-- The `ApiService` request interceptor.  Mirrors: read `accessToken`
and `refreshToken`; if both are truthy and the access token is expiring
soon, call the refresh endpoint once — on a `success` response with
tokens, store them and use the new access token; on any other response or
a caught error, keep the old token and do not block; finally attach
`Bearer` + token when the token is truthy. -/
def requestInterceptor (jwtExp : String → Option Int) (now : Int)
    (st : Storage) (refresh : RefreshOutcome) : ReqResult :=
  let token := st.accessToken
  if optTruthy token && optTruthy st.refreshToken
      && isTokenExpiringSoon jwtExp now token then
    match refresh with
    | .networkError =>
      { storage := st, authHeader := mkAuthHeader token, refreshCalls := 1 }
    | .response rstatus tokens =>
      if rstatus = "success" then
        match tokens with
        | some tk =>
          { storage := storeRefreshedTokens st tk,
            authHeader := mkAuthHeader (some tk.accessToken),
            refreshCalls := 1 }
        | none =>
          { storage := st, authHeader := mkAuthHeader token, refreshCalls := 1 }
      else
        { storage := st, authHeader := mkAuthHeader token, refreshCalls := 1 }
  else
    { storage := st, authHeader := mkAuthHeader token, refreshCalls := 0 }

/-- The token pair of a login response (`response.data.tokens`): both
fields are present strings (`AuthTokens` of the shared types). -/
structure AuthTokens where
  accessToken : String
  refreshToken : String
deriving Repr, DecidableEq

/-- `response.data` of a successful login: a token pair and the user
profile. -/
structure LoginData where
  tokens : AuthTokens
  user : User
deriving Repr, DecidableEq

/-- A backend response envelope as seen by `login`: `status`, an optional
`message`, and optional `data`. -/
structure LoginResponse where
  status : String
  message : Option String
  data : Option LoginData
deriving Repr, DecidableEq

/-- `response.message || 'Login failed'` — JS `||` falls through on a
missing or empty message. -/
def messageOrDefault (message : Option String) (dflt : String) : String :=
  match message with
  | some m => if m = "" then dflt else m
  | none => dflt

/-- `setAuthData(tokens, userData)`: unconditionally persists the token
pair and the serialized profile, and sets the in-memory user. -/
def setAuthData (st : Storage) (tokens : AuthTokens) (userData : User) :
    Storage × Option User :=
  ({ st with accessToken := some tokens.accessToken,
             refreshToken := some tokens.refreshToken,
             user := some userData },
   some userData)

/-- Result of `login`: final storage, final in-memory user, and the
message of the `Error` thrown (`none` when no error was thrown). -/
structure LoginResult where
  storage : Storage
  memUser : Option User
  thrown : Option String
deriving Repr, DecidableEq

/-- `login(email, password)` of the auth context, given the backend's
response: on `status === 'success'` with data, `setAuthData(tokens,
user)`; otherwise `throw new Error(response.message || 'Login
failed')`. -/
def login (st : Storage) (mem : Option User) (resp : LoginResponse) :
    LoginResult :=
  if resp.status = "success" then
    match resp.data with
    | some d =>
      let (st', mem') := setAuthData st d.tokens d.user
      { storage := st', memUser := mem', thrown := none }
    | none =>
      { storage := st, memUser := mem,
        thrown := some (messageOrDefault resp.message "Login failed") }
  else
    { storage := st, memUser := mem,
      thrown := some (messageOrDefault resp.message "Login failed") }

/-- `logout()`: `localStorage.removeItem('user')`,
`removeItem('accessToken')`, `removeItem('refreshToken')`,
`setUser(null)`.  It takes no network outcome: the body performs no API
call.  `lastRoleCheck` is not removed. -/
def logout (st : Storage) : Storage × Option User :=
  ({ st with user := none, accessToken := none, refreshToken := none },
   none)

/-- Outcome of `api.getCurrentUser()`: a thrown network error, or a
response with `status` and optional `data` (the fresh profile). -/
inductive UserFetchOutcome where
  | networkError : UserFetchOutcome
  | response (status : String) (data : Option User) : UserFetchOutcome
deriving Repr, DecidableEq

/-- `refreshUser()` of the auth context (role-compare version): return
early without an access token; on a `success` response with data,
overwrite the stored profile and in-memory user only when both the
cached role and the fetched role are truthy and differ, or when no
cached profile exists; on a non-success response or a thrown error, fall
back to the stored profile for the in-memory user, leaving storage
untouched. -/
def refreshUser (st : Storage) (mem : Option User)
    (outcome : UserFetchOutcome) : Storage × Option User :=
  match st.accessToken with
  | none => (st, mem)
  | some a =>
    if a = "" then (st, mem)
    else
      let currentUser := st.user
      let currentRole := currentUser.bind (·.role)
      let fallback : Storage × Option User :=
        (st, match st.user with
             | some u => some u
             | none => mem)
      match outcome with
      | .networkError => fallback
      | .response status data =>
        if status = "success" then
          match data with
          | some userData =>
            let newRole := userData.role
            if optTruthy currentRole && optTruthy newRole
                && !(currentRole == newRole) then
              ({ st with user := some userData }, some userData)
            else if currentUser = none then
              ({ st with user := some userData }, some userData)
            else
              (st, mem)
          | none => fallback
        else fallback

/-! ## SimpleMapPicker (bounds-restricted variant) -/

/-- `ISLAND_BOUNDS_OPTS` of the Mactan/Cordova-restricted map picker.
Coordinates are modelled as rationals. -/
def ISLAND_BOUNDS_minLat : ℚ := 10.2300
def ISLAND_BOUNDS_maxLat : ℚ := 10.3600
def ISLAND_BOUNDS_minLng : ℚ := 123.9300
def ISLAND_BOUNDS_maxLng : ℚ := 124.0600

/-- `isWithinBounds(latitude, longitude)`: the conjunction of the four
bounding-box comparisons. -/
def isWithinBounds (latitude longitude : ℚ) : Bool :=
  decide (ISLAND_BOUNDS_minLat ≤ latitude)
    && decide (latitude ≤ ISLAND_BOUNDS_maxLat)
    && decide (ISLAND_BOUNDS_minLng ≤ longitude)
    && decide (longitude ≤ ISLAND_BOUNDS_maxLng)

/-- The map `click` handler of the bounds-restricted picker, reduced to
its `onLocationSelect` effect: `if (!isWithinBounds(lat, lng)) return;`
then (after replacing the marker) `onLocationSelect(lat, lng)`.  The
result is the argument pair `onLocationSelect` is invoked with, `none`
when the callback is not invoked. -/
def mapClickSelect (lat lng : ℚ) : Option (ℚ × ℚ) :=
  if !isWithinBounds lat lng then none
  else some (lat, lng)

/-! ## BusinessProfile reply counter -/

/-- A discussion node as used by `countTotalReplies`: the `replies` field
is an optional array of nested discussion nodes (`replies?:
Discussion[]`). -/
inductive Discussion where
  | mk (content : String) (replies : Option (List Discussion)) : Discussion

/-- The `replies` field of a discussion node. -/
def Discussion.replies : Discussion → Option (List Discussion)
  | .mk _ r => r

mutual
/-- `countTotalReplies(replies)`: `if (!replies || replies.length === 0)
return 0; return replies.reduce((count, reply) => count + 1 +
countTotalReplies(reply.replies), 0);`. -/
def countTotalReplies : Option (List Discussion) → Nat
  | none => 0
  | some rs =>
    if rs.length = 0 then 0
    else countReduce 0 rs
termination_by o => sizeOf o
decreasing_by
  simp_wf

/-- The `reduce` accumulator loop of `countTotalReplies`. -/
def countReduce (count : Nat) : List Discussion → Nat
  | [] => count
  | reply :: rest =>
    countReduce (count + 1 + countTotalReplies reply.replies) rest
termination_by l => sizeOf l
decreasing_by
  all_goals simp_wf
  all_goals cases reply with
    | mk c r => simp [Discussion.replies]; omega
end

/-- A refresh-endpoint outcome on which the refresh logic does not end up
with new tokens: a thrown error, a non-`success` status, or a `success`
response without a token object. -/
def refreshFailed : RefreshOutcome → Bool
  | .networkError => true
  | .response status tokens =>
    !(status == "success") || tokens.isNone

mutual
/-- Mathematical node count of a reply tree: the node itself plus all of
its descendants, a missing `replies` field counting as no children. -/
def replyNodeCount : Discussion → Nat
  | .mk _ r => 1 + replyForestCount (r.getD [])
termination_by d => sizeOf d
decreasing_by
  simp_wf
  cases r with
  | none => simp
  | some l => simp; omega

/-- Mathematical node count of a list of reply trees: the sum of the
node counts of its members. -/
def replyForestCount : List Discussion → Nat
  | [] => 0
  | d :: ds => replyNodeCount d + replyForestCount ds
termination_by l => sizeOf l
decreasing_by
  all_goals simp_wf
  all_goals omega
end

/-! ## Theorems -/

/-- C4: `isTokenExpiringSoon` returns `true` whenever the token's
decoded expiry lies within the two-minute lookahead window of the
current time, `true` whenever the token has no decodable expiry claim,
and `true` for an absent (`null`) token. -/
theorem isTokenExpiringSoon_classification (jwtExp : String → Option Int)
    (now : Int) :
    (∀ token exp, getTokenExpiration jwtExp token = some exp →
      exp ≤ now + 2 * 60 * 1000 →
      isTokenExpiringSoon jwtExp now (some token) = true)
    ∧ (∀ token, getTokenExpiration jwtExp token = none →
      isTokenExpiringSoon jwtExp now (some token) = true)
    ∧ isTokenExpiringSoon jwtExp now none = true := by
  refine ⟨?_, ?_, rfl⟩
  · intro token exp hdec hle
    unfold isTokenExpiringSoon
    by_cases h : token = ""
    · simp [h]
    · simp [h, hdec]
      omega
  · intro token hdec
    unfold isTokenExpiringSoon
    by_cases h : token = ""
    · simp [h]
    · simp [h, hdec]

/-- Witness for C4 at a concrete decoder, time and token. -/
theorem isTokenExpiringSoon_classification_witness :
    isTokenExpiringSoon (fun _ => some 100) 0 (some "t") = true :=
  (isTokenExpiringSoon_classification (fun _ => some 100) 0).1 "t" 100000
    (by decide) (by decide)

/-- C10: a map click invokes `onLocationSelect` only with coordinates
inside the configured island bounding box (minLat 10.23, maxLat 10.36,
minLng 123.93, maxLng 124.06); a click outside that box never invokes the
callback. -/
theorem mapClickSelect_withinBounds (lat lng la ln : ℚ) :
    (mapClickSelect lat lng = some (la, ln) →
      isWithinBounds la ln = true ∧
      (10.23 : ℚ) ≤ la ∧ la ≤ (10.36 : ℚ) ∧
      (123.93 : ℚ) ≤ ln ∧ ln ≤ (124.06 : ℚ))
    ∧ (isWithinBounds lat lng = false → mapClickSelect lat lng = none) := by
  constructor
  · intro h
    unfold mapClickSelect at h
    by_cases hb : isWithinBounds lat lng
    · simp [hb] at h
      obtain ⟨h1, h2⟩ := h
      subst h1; subst h2
      refine ⟨hb, ?_⟩
      unfold isWithinBounds at hb
      simp only [Bool.and_eq_true, decide_eq_true_eq] at hb
      have e1 : ISLAND_BOUNDS_minLat = (10.23 : ℚ) := by
        unfold ISLAND_BOUNDS_minLat; norm_num
      have e2 : ISLAND_BOUNDS_maxLat = (10.36 : ℚ) := by
        unfold ISLAND_BOUNDS_maxLat; norm_num
      have e3 : ISLAND_BOUNDS_minLng = (123.93 : ℚ) := by
        unfold ISLAND_BOUNDS_minLng; norm_num
      have e4 : ISLAND_BOUNDS_maxLng = (124.06 : ℚ) := by
        unfold ISLAND_BOUNDS_maxLng; norm_num
      exact ⟨e1 ▸ hb.1.1.1, e2 ▸ hb.1.1.2, e3 ▸ hb.1.2, e4 ▸ hb.2⟩
    · simp [hb] at h
  · intro h
    unfold mapClickSelect
    simp [h]

/-- Witness for C10 at a concrete in-bounds click. -/
theorem mapClickSelect_withinBounds_witness :
    isWithinBounds 10.3 124.0 = true ∧
    (10.23 : ℚ) ≤ 10.3 ∧ (10.3 : ℚ) ≤ 10.36 ∧
    (123.93 : ℚ) ≤ 124.0 ∧ (124.0 : ℚ) ≤ 124.06 :=
  (mapClickSelect_withinBounds 10.3 124.0 10.3 124.0).1
    (by norm_num [mapClickSelect, isWithinBounds, ISLAND_BOUNDS_minLat,
      ISLAND_BOUNDS_maxLat, ISLAND_BOUNDS_minLng, ISLAND_BOUNDS_maxLng])

/-- C7 counterexample: `logout` does not remove the `lastRoleCheck`
key — after a logout from a storage holding `lastRoleCheck`, that key is
still present, so not all persisted session keys are cleared. -/
theorem logout_lastRoleCheck_kept :
    ((logout ⟨some "a", some "r",
        some ⟨"1", some "n", some "e", some "CUSTOMER"⟩,
        some "12345"⟩).1).lastRoleCheck = some "12345" := rfl

/-- C7 amended: `logout()` clears the three session storage keys
(`accessToken`, `refreshToken`, `user`) and the in-memory user, leaving
`lastRoleCheck` as it was; its body performs no network call (the model
takes no network outcome).  Afterwards the three session keys are
absent. -/
theorem logout_clears_session (st : Storage) :
    logout st = (⟨none, none, none, st.lastRoleCheck⟩, none) := by
  cases st
  rfl

/-- C6: on a login response whose status is not `success` or that carries
no data, the session storage and in-memory user are unchanged and the
thrown error's message is the backend's message, or `"Login failed"` when
the backend provides none. -/
theorem login_invalid_leaves_session (st : Storage) (mem : Option User)
    (resp : LoginResponse)
    (h : resp.status ≠ "success" ∨ resp.data = none) :
    login st mem resp =
      { storage := st, memUser := mem,
        thrown := some (messageOrDefault resp.message "Login failed") } := by
  unfold login
  rcases h with h | h
  · simp [h]
  · by_cases hs : resp.status = "success"
    · simp [hs, h]
    · simp [hs]

/-- Witness for C6 at a concrete invalid-credentials response. -/
theorem login_invalid_leaves_session_witness :
    login ⟨none, none, none, none⟩ none
        ⟨"error", some "Invalid credentials", none⟩ =
      { storage := ⟨none, none, none, none⟩, memUser := none,
        thrown := some "Invalid credentials" } :=
  login_invalid_leaves_session ⟨none, none, none, none⟩ none
    ⟨"error", some "Invalid credentials", none⟩ (Or.inl (by decide))

/-- C8: after a successful login carrying a token pair (non-empty
strings, as a pair of tokens) and a user profile, the session storage
holds a non-empty `accessToken`, a non-empty `refreshToken`, and the
user profile under the `user` key, and no error is thrown. -/
theorem login_success_populates_session (st : Storage) (mem : Option User)
    (resp : LoginResponse) (d : LoginData)
    (hst : resp.status = "success") (hd : resp.data = some d)
    (ha : d.tokens.accessToken ≠ "") (hr : d.tokens.refreshToken ≠ "") :
    (∃ a, (login st mem resp).storage.accessToken = some a ∧ a ≠ "")
    ∧ (∃ r, (login st mem resp).storage.refreshToken = some r ∧ r ≠ "")
    ∧ (login st mem resp).storage.user = some d.user
    ∧ (login st mem resp).thrown = none := by
  unfold login
  simp [hst, hd, setAuthData, ha, hr]

/-- Witness for C8 at a concrete successful login response. -/
theorem login_success_populates_session_witness :
    (∃ a, (login ⟨none, none, none, none⟩ none
      ⟨"success", none, some ⟨⟨"at1", "rt1"⟩,
        ⟨"1", some "n", some "e", some "CUSTOMER"⟩⟩⟩).storage.accessToken
        = some a ∧ a ≠ "")
    ∧ (∃ r, (login ⟨none, none, none, none⟩ none
      ⟨"success", none, some ⟨⟨"at1", "rt1"⟩,
        ⟨"1", some "n", some "e", some "CUSTOMER"⟩⟩⟩).storage.refreshToken
        = some r ∧ r ≠ "")
    ∧ (login ⟨none, none, none, none⟩ none
      ⟨"success", none, some ⟨⟨"at1", "rt1"⟩,
        ⟨"1", some "n", some "e", some "CUSTOMER"⟩⟩⟩).storage.user
        = some ⟨"1", some "n", some "e", some "CUSTOMER"⟩
    ∧ (login ⟨none, none, none, none⟩ none
      ⟨"success", none, some ⟨⟨"at1", "rt1"⟩,
        ⟨"1", some "n", some "e", some "CUSTOMER"⟩⟩⟩).thrown = none :=
  login_success_populates_session ⟨none, none, none, none⟩ none
    ⟨"success", none, some ⟨⟨"at1", "rt1"⟩,
      ⟨"1", some "n", some "e", some "CUSTOMER"⟩⟩⟩
    ⟨⟨"at1", "rt1"⟩, ⟨"1", some "n", some "e", some "CUSTOMER"⟩⟩
    rfl rfl (by decide) (by decide)

/-- C1: a reactive refresh is attempted at most once per original
request — every request the interceptor replays carries `_retry = true`,
and a 401 on a request already carrying `_retry = true` triggers no
refresh call, no replay, and no storage change. -/
theorem reactiveRetry_atMostOnce (st : Storage) (pathname : String)
    (req : Request) (status : Option Nat) (refresh : RefreshOutcome) :
    (∀ req',
      (handleResponseError st pathname req status refresh).action =
        .replay req' →
      req'._retry = true)
    ∧ (req._retry = true →
      handleResponseError st pathname req (some 401) refresh =
        { storage := st, redirect := false, refreshCalls := 0,
          action := .rejectOriginal }) := by
  constructor
  · intro req' h
    unfold handleResponseError at h
    by_cases hc : status = some 401 ∧ req._retry = false
    · rw [if_pos hc] at h
      by_cases hrt : optTruthy st.refreshToken = true
      · cases refresh with
        | networkError => simp [hrt] at h
        | response rstatus tokens =>
          by_cases hs : rstatus = "success"
          · cases tokens with
            | none => simp [hrt, hs] at h
            | some tk =>
              simp [hrt, hs] at h
              rw [← h]
          · simp [hrt, hs] at h
      · simp [hrt] at h
    · rw [if_neg hc] at h
      simp at h
  · intro h
    unfold handleResponseError
    simp [h]

/-- Witness for C1: a concrete replay carries the retry flag, and a 401
on a flagged request is rejected untouched with no refresh. -/
theorem reactiveRetry_atMostOnce_witness :
    (Request.mk true (some ("Bearer " ++ "new")))._retry = true ∧
    handleResponseError ⟨some "a", some "r0", none, none⟩ "/x" ⟨true, none⟩
        (some 401) RefreshOutcome.networkError =
      { storage := ⟨some "a", some "r0", none, none⟩, redirect := false,
        refreshCalls := 0, action := .rejectOriginal } :=
  ⟨(reactiveRetry_atMostOnce ⟨some "a", some "r0", none, none⟩ "/x"
      ⟨false, none⟩ (some 401)
      (.response "success" (some ⟨"new", some "nr"⟩))).1
      ⟨true, some ("Bearer " ++ "new")⟩ (by rfl),
   (reactiveRetry_atMostOnce ⟨some "a", some "r0", none, none⟩ "/x"
      ⟨true, none⟩ (some 401) .networkError).2 rfl⟩

/-- C2 counterexample: with no stored refresh token, a 401 received
while the browser is already on `/login` still assigns
`window.location.href = '/login'` — the "unless already on the login
page" guard exists only in the refresh-failure path, not in the
missing-refresh-token path. -/
theorem reactive401_redirects_on_login_page :
    (handleResponseError ⟨some "a", none, some ⟨"1", none, none, none⟩, none⟩
        "/login" ⟨false, none⟩ (some 401) .networkError).redirect = true := rfl

/-- C2 amended: on a 401 for a request not already retried — with no
truthy stored refresh token (`if (!refreshToken)`: the key absent, or
holding the falsy empty string), the three session keys are cleared and
the redirect fires unconditionally (even on `/login`) with no refresh
call; with a truthy stored refresh token, exactly one refresh call is
made: on a `success` response with tokens they are stored and the
request is replayed once with the new bearer token, and on a failed
refresh the three keys are cleared and the redirect fires unless
already on `/login`. -/
theorem reactive401_amended (st : Storage) (pathname : String)
    (req : Request) (refresh : RefreshOutcome) (h : req._retry = false) :
    (optTruthy st.refreshToken = false →
      handleResponseError st pathname req (some 401) refresh =
        { storage := clearSessionKeys st, redirect := true,
          refreshCalls := 0, action := .rejectOriginal })
    ∧ (optTruthy st.refreshToken = true →
      (handleResponseError st pathname req (some 401) refresh).refreshCalls
        = 1)
    ∧ (∀ tk, optTruthy st.refreshToken = true →
      refresh = .response "success" (some tk) →
      handleResponseError st pathname req (some 401) refresh =
        { storage := storeRefreshedTokens st tk, redirect := false,
          refreshCalls := 1,
          action := .replay ⟨true, some ("Bearer " ++ tk.accessToken)⟩ })
    ∧ (optTruthy st.refreshToken = true → refreshFailed refresh = true →
      handleResponseError st pathname req (some 401) refresh =
        { storage := clearSessionKeys st,
          redirect := decide (pathname ≠ "/login"), refreshCalls := 1,
          action := .rejectRefreshError }) := by
  obtain ⟨r, a⟩ := req
  simp only at h
  subst h
  refine ⟨?_, ?_, ?_, ?_⟩
  · intro hrt
    unfold handleResponseError
    simp [hrt]
  · intro hrt
    unfold handleResponseError
    cases refresh with
    | networkError => simp [hrt]
    | response rstatus tokens =>
      by_cases hs : rstatus = "success"
      · cases tokens <;> simp [hrt, hs]
      · simp [hrt, hs]
  · intro tk hrt href
    subst href
    unfold handleResponseError
    simp [hrt]
  · intro hrt hfail
    unfold handleResponseError
    cases refresh with
    | networkError => simp [hrt]
    | response rstatus tokens =>
      unfold refreshFailed at hfail
      by_cases hs : rstatus = "success"
      · cases tokens with
        | some tk => simp [hs] at hfail
        | none => simp [hrt, hs]
      · simp [hrt, hs]

/-- Witness for C2 at a concrete successful reactive refresh. -/
theorem reactive401_amended_witness :
    handleResponseError ⟨some "a", some "r0", none, none⟩ "/x"
        ⟨false, none⟩ (some 401)
        (.response "success" (some ⟨"new", some "nr"⟩)) =
      { storage := storeRefreshedTokens ⟨some "a", some "r0", none, none⟩
          ⟨"new", some "nr"⟩,
        redirect := false, refreshCalls := 1,
        action := .replay ⟨true, some ("Bearer " ++ "new")⟩ } :=
  (reactive401_amended ⟨some "a", some "r0", none, none⟩ "/x" ⟨false, none⟩
      (.response "success" (some ⟨"new", some "nr"⟩)) rfl).2.2.1
    ⟨"new", some "nr"⟩ rfl rfl

/-- C3 counterexample: an expiring access token with a stored refresh
token, where the proactive refresh call throws — one refresh is
attempted, and the request still goes out with the old access token
attached as `Authorization: Bearer tokA`, not unauthenticated. -/
theorem proactive_header_kept_on_failure :
    requestInterceptor (fun s => if s = "tokA" then some 1 else none) 0
        ⟨some "tokA", some "r0", none, none⟩ .networkError =
      { storage := ⟨some "tokA", some "r0", none, none⟩,
        authHeader := some "Bearer tokA", refreshCalls := 1 } := rfl

/-- C3 amended: when an access token and a refresh token are both
present (truthy) and the access token is expiring soon, exactly one
proactive refresh is attempted; a failed proactive refresh does not
block the request — it proceeds with the old access token still
attached as the bearer credential, relying on reactive 401 handling; a
successful one attaches the renewed token; without a truthy access
token, without a stored refresh token, or with a token not expiring
soon, no proactive refresh happens and the stored token (if truthy) is
attached. -/
theorem proactiveRefresh_amended (jwtExp : String → Option Int) (now : Int)
    (st : Storage) (refresh : RefreshOutcome) :
    (optTruthy st.accessToken = true → optTruthy st.refreshToken = true →
      isTokenExpiringSoon jwtExp now st.accessToken = true →
      (requestInterceptor jwtExp now st refresh).refreshCalls = 1)
    ∧ (optTruthy st.accessToken = true → optTruthy st.refreshToken = true →
      isTokenExpiringSoon jwtExp now st.accessToken = true →
      refreshFailed refresh = true →
      requestInterceptor jwtExp now st refresh =
        { storage := st, authHeader := mkAuthHeader st.accessToken,
          refreshCalls := 1 })
    ∧ (∀ tk, optTruthy st.accessToken = true →
      optTruthy st.refreshToken = true →
      isTokenExpiringSoon jwtExp now st.accessToken = true →
      refresh = .response "success" (some tk) →
      requestInterceptor jwtExp now st refresh =
        { storage := storeRefreshedTokens st tk,
          authHeader := mkAuthHeader (some tk.accessToken),
          refreshCalls := 1 })
    ∧ (optTruthy st.accessToken = false ∨ optTruthy st.refreshToken = false ∨
        isTokenExpiringSoon jwtExp now st.accessToken = false →
      requestInterceptor jwtExp now st refresh =
        { storage := st, authHeader := mkAuthHeader st.accessToken,
          refreshCalls := 0 }) := by
  refine ⟨?_, ?_, ?_, ?_⟩
  · intro h1 h2 h3
    unfold requestInterceptor
    simp only [h1, h2, h3, Bool.and_self, Bool.and_true, Bool.true_and,
      if_true]
    cases refresh with
    | networkError => simp
    | response rstatus tokens =>
      by_cases hs : rstatus = "success"
      · cases tokens <;> simp [hs]
      · simp [hs]
  · intro h1 h2 h3 hfail
    unfold requestInterceptor
    simp only [h1, h2, h3, Bool.and_self, Bool.and_true, Bool.true_and,
      if_true]
    cases refresh with
    | networkError => simp
    | response rstatus tokens =>
      unfold refreshFailed at hfail
      by_cases hs : rstatus = "success"
      · cases tokens with
        | some tk => simp [hs] at hfail
        | none => simp [hs]
      · simp [hs]
  · intro tk h1 h2 h3 href
    subst href
    unfold requestInterceptor
    simp only [h1, h2, h3, Bool.and_self, Bool.and_true, Bool.true_and,
      if_true]
  · intro h
    unfold requestInterceptor
    rcases h with h | h | h <;> simp [h]

/-- Witness for C3 at a concrete failed proactive refresh. -/
theorem proactiveRefresh_amended_witness :
    requestInterceptor (fun s => if s = "tokB" then some 1 else none) 0
        ⟨some "tokB", some "r1", none, none⟩ .networkError =
      { storage := ⟨some "tokB", some "r1", none, none⟩,
        authHeader := mkAuthHeader (some "tokB"), refreshCalls := 1 } :=
  (proactiveRefresh_amended (fun s => if s = "tokB" then some 1 else none) 0
      ⟨some "tokB", some "r1", none, none⟩ .networkError).2.1
    rfl rfl (by rfl) rfl

/-- C5: given a successful `getCurrentUser` response, `refreshUser()`
overwrites the cached profile in storage only when the fetched role
differs from the cached role or when no cached profile exists; on a
network failure, storage is untouched and the in-memory user falls back
to the last cached profile. -/
theorem refreshUser_frame (st : Storage) (mem : Option User) :
    (∀ u, (refreshUser st mem (.response "success" (some u))).1.user ≠
        st.user →
      st.user = none ∨ st.user.bind (fun c => c.role) ≠ u.role)
    ∧ (optTruthy st.accessToken = true →
      refreshUser st mem .networkError =
        (st, match st.user with
             | some c => some c
             | none => mem)) := by
  constructor
  · intro u h
    unfold refreshUser at h
    cases hat : st.accessToken with
    | none => rw [hat] at h; simp at h
    | some a =>
      rw [hat] at h
      dsimp only at h
      by_cases ha : a = ""
      · simp [ha] at h
      · rw [if_neg ha] at h
        by_cases hcond : (optTruthy (st.user.bind fun c => c.role)
            && optTruthy u.role
            && !((st.user.bind fun c => c.role) == u.role)) = true
        · right
          simp only [Bool.and_eq_true, Bool.not_eq_true', beq_eq_false_iff_ne,
            ne_eq] at hcond
          exact hcond.2
        · rw [if_neg hcond] at h
          by_cases hcu : st.user = none
          · left; exact hcu
          · rw [if_neg hcu] at h
            simp at h
  · intro hat
    unfold refreshUser
    cases ht : st.accessToken with
    | none => rw [ht] at hat; simp [optTruthy] at hat
    | some a =>
      by_cases ha : a = ""
      · rw [ht, ha] at hat; simp [optTruthy] at hat
      · simp [ha]

/-- Witness for C5: a cached `CUSTOMER` profile refreshed to `ADMIN` —
the overwrite that occurs is licensed by a role change. -/
theorem refreshUser_frame_witness :
    ((⟨some "a", none, some ⟨"1", none, none, some "CUSTOMER"⟩, none⟩ :
        Storage).user = none ∨
      (⟨some "a", none, some ⟨"1", none, none, some "CUSTOMER"⟩, none⟩ :
        Storage).user.bind (fun c => c.role) ≠
        (⟨"1", none, none, some "ADMIN"⟩ : User).role)
    ∧ refreshUser ⟨some "a", none,
        some ⟨"1", none, none, some "CUSTOMER"⟩, none⟩ none
        .networkError =
      (⟨some "a", none, some ⟨"1", none, none, some "CUSTOMER"⟩, none⟩,
       some ⟨"1", none, none, some "CUSTOMER"⟩) :=
  ⟨(refreshUser_frame ⟨some "a", none,
      some ⟨"1", none, none, some "CUSTOMER"⟩, none⟩ none).1
      ⟨"1", none, none, some "ADMIN"⟩ (by decide),
   (refreshUser_frame ⟨some "a", none,
      some ⟨"1", none, none, some "CUSTOMER"⟩, none⟩ none).2 rfl⟩

/-- Simultaneous bounded induction for the reply counter: the
accumulator loop adds the mathematical forest count, and
`countTotalReplies` computes the mathematical count of its argument. -/
theorem count_spec_aux (n : Nat) :
    (∀ o : Option (List Discussion), sizeOf o ≤ n →
      countTotalReplies o =
        match o with
        | none => 0
        | some rs => replyForestCount rs)
    ∧ (∀ rs : List Discussion, sizeOf rs ≤ n →
      ∀ acc, countReduce acc rs = acc + replyForestCount rs) := by
  induction n with
  | zero =>
    constructor
    · intro o h
      cases o <;> simp at h
    · intro rs h
      cases rs <;> simp at h
  | succ n ih =>
    obtain ⟨ih1, ih2⟩ := ih
    constructor
    · intro o h
      cases o with
      | none => simp [countTotalReplies]
      | some rs =>
        rw [countTotalReplies]
        by_cases hl : rs.length = 0
        · obtain rfl := List.length_eq_zero.mp hl
          simp [replyForestCount]
        · rw [if_neg hl]
          have hsz : sizeOf rs ≤ n := by
            simp at h; omega
          rw [ih2 rs hsz 0]
          simp
    · intro rs h acc
      cases rs with
      | nil => simp [countReduce, replyForestCount]
      | cons r rest =>
        rw [countReduce]
        have hrest : sizeOf rest ≤ n := by
          simp at h; omega
        rw [ih2 rest hrest]
        have hnode : 1 + countTotalReplies r.replies = replyNodeCount r := by
          cases r with
          | mk c rr =>
            have hrr : sizeOf rr ≤ n := by
              simp at h; omega
            rw [replyNodeCount, Discussion.replies, ih1 rr hrr]
            cases rr <;> simp [replyForestCount]
        rw [replyForestCount]
        omega

/-- C9: `countTotalReplies` returns the total number of reply nodes in
the tree — each direct reply plus all of its nested descendants counted
once — and returns 0 for an undefined or empty reply list. -/
theorem countTotalReplies_counts_nodes :
    countTotalReplies none = 0
    ∧ countTotalReplies (some []) = 0
    ∧ ∀ rs : List Discussion,
        countTotalReplies (some rs) = replyForestCount rs := by
  refine ⟨by simp [countTotalReplies], by simp [countTotalReplies], ?_⟩
  intro rs
  have := (count_spec_aux (sizeOf (some rs))).1 (some rs) le_rfl
  simpa using this

end Locafy
